import Mathlib

/-!
Shallow embedding of the delegate check-in core of the fgbmfi-ng-rmm-app
repository: the deterministic code deriver (`generateCodeFromId` in the
utils module), the normalization helper, the check-in engine
(`checkInDelegate`, `checkInByCode`), the search layer (`searchDelegates`)
and the aggregation engine (`getStats`) of `services/supabaseService.ts`.

JavaScript strings are modelled as Lean `String` (service-level values)
and as lists of UTF-16 code units (`List Nat`) for the rolling hash,
whose arithmetic is 32-bit signed with wraparound.  The hosted
persistence layer is modelled as an explicit database state (`DB`) with
the uniqueness constraint on check-in rows over
(event id, delegate id, session id) that the schema declares;
asynchronous calls become explicit state passing (a concurrent
interleaving between the lookup and the insert of the check-in engine is
made explicit by giving the two awaits separate database snapshots), and
a thrown JavaScript `Error` becomes `Except.error` carrying the thrown
message.  Financial amounts are modelled as integers; none of the
verified properties concern financial totals.
-/

namespace FGB

/-! ### Code deriver (utils module) -/

/-- Wraps an integer to JavaScript signed 32-bit semantics (`ToInt32`):
reduce modulo 2^32 into `[0, 2^32)`, then shift the upper half down by
2^32 to land in `[-2^31, 2^31)`. -/
def toInt32 (n : Int) : Int :=
  let m := n % 4294967296
  if m < 2147483648 then m else m - 4294967296

/-- One step of the rolling hash exactly as the source writes it:
`hash = ((hash << 5) - hash) + char; hash = hash & hash`.  The shift
coerces its operand to signed 32-bit and wraps, and the final bitwise-and
with itself coerces the double-precision sum back to signed 32-bit. -/
def hashStep (h : Int) (c : Nat) : Int :=
  toInt32 (toInt32 (h * 32) - h + c)

/-- The rolling hash of `generateCodeFromId`, folded over the UTF-16 code
units of the salt string, starting from 0. -/
def hashUnits (s : List Nat) : Int := s.foldl hashStep 0

/-- JavaScript `String.prototype.padStart` restricted to a one-character
pad: prepend copies of `c` until the length reaches `n` (no-op when the
string is already at least that long). -/
def padStart (n : Nat) (c : Char) (s : String) : String :=
  ⟨List.replicate (n - s.length) c ++ s.data⟩

/-- The code deriver `generateCodeFromId` from the source utils module,
over UTF-16 code-unit sequences: empty delegate id or event id fails
closed to "0000"; otherwise hash the concatenation, take
`abs(hash) % 9999 + 1`, render in decimal and zero-pad to 4 digits. -/
def generateCodeFromId (delegateId eventId : List Nat) : String :=
  if delegateId = [] ∨ eventId = [] then "0000"
  else padStart 4 '0' (Nat.repr ((hashUnits (delegateId ++ eventId)).natAbs % 9999 + 1))

/-- Modelled from the spec wording of claim C1, for comparison with the
source definition: one hash step is `hash = hash*31 + charCode` with
wraparound to signed 32-bit integer semantics after each step. -/
def specHashStep (h : Int) (c : Nat) : Int := toInt32 (h * 31 + c)

/-- The spec-worded rolling hash over the concatenated identifiers. -/
def specHash (s : List Nat) : Int := s.foldl specHashStep 0

/-- Modelled from the spec wording of claim C1: the 4-character
zero-padded decimal string of `(abs(h) % 9999) + 1` over the spec-worded
hash of the concatenation, with empty inputs failing closed to "0000". -/
def specDeriveCode (delegateId eventId : List Nat) : String :=
  if delegateId = [] ∨ eventId = [] then "0000"
  else padStart 4 '0' (Nat.repr ((specHash (delegateId ++ eventId)).natAbs % 9999 + 1))

/-- The UTF-16 code units of a service-level string.  All characters in
this development live in the basic multilingual plane, where a Lean
character's code point is its single UTF-16 unit. -/
def codeUnits (s : String) : List Nat := s.data.map Char.toNat

/-- The code deriver applied to service-level strings. -/
def generateCode (delegateId eventId : String) : String :=
  generateCodeFromId (codeUnits delegateId) (codeUnits eventId)

/-! ### Normalization (supabaseService.ts) -/

/-- JavaScript whitespace: the characters recognised by `trim` that occur
in this domain (ASCII whitespace, no-break space). -/
def isJsSpace (c : Char) : Bool :=
  c == ' ' || c == '\t' || c == '\n' || c == '\r'
    || c == Char.ofNat 11 || c == Char.ofNat 12 || c == Char.ofNat 160

/-- Removes leading and trailing whitespace from a character list. -/
def trimChars (l : List Char) : List Char :=
  ((l.dropWhile isJsSpace).reverse.dropWhile isJsSpace).reverse

/-- JavaScript `String.prototype.trim`. -/
def jsTrim (s : String) : String := ⟨trimChars s.data⟩

/-- JavaScript `toLowerCase`, over the characters of the string. -/
def jsToLower (s : String) : String := ⟨s.data.map Char.toLower⟩

/-- JavaScript `toUpperCase`, over the characters of the string. -/
def jsToUpper (s : String) : String := ⟨s.data.map Char.toUpper⟩

/-- The `normalize` helper of `services/supabaseService.ts`:
`(val || '').trim()` — an absent value becomes the empty string, and the
result is trimmed.  (This variant only trims; it does not collapse
interior whitespace.) -/
def normalize (val : Option String) : String := jsTrim (val.getD "")

/-- Collapses every maximal run of whitespace characters into a single
space (a whitespace character followed by more whitespace is dropped, the
last one of a run becomes a space).  Used only by the spec-worded
`specNormalize` below. -/
def collapseRuns : List Char → List Char
  | [] => []
  | [c] => if isJsSpace c then [' '] else [c]
  | c :: c2 :: rest =>
    if isJsSpace c then
      if isJsSpace c2 then collapseRuns (c2 :: rest)
      else ' ' :: collapseRuns (c2 :: rest)
    else c :: collapseRuns (c2 :: rest)

/-- Modelled from the spec wording of claim C8, for comparison with the
source `normalize`: collapse all whitespace runs to a single space and
trim leading and trailing whitespace. -/
def specNormalize (s : String) : String := ⟨trimChars (collapseRuns s.data)⟩

/-! ### Data model -/

/-- A delegate row (master list).  Columns not read by the embedded
operations (display name, room number, created-at) are omitted. -/
structure Delegate where
  delegate_id : String
  title : String
  first_name : String
  last_name : String
  chapter : String
  district : String
  email : String
  phone : String
  rank : String
  office : String
deriving DecidableEq, Repr

/-- A check-in row.  The row id is database-generated and never read by
the embedded operations, so it is omitted; timestamps are abstract
ticks. -/
structure CheckIn where
  event_id : String
  delegate_id : String
  session_id : Option String
  checked_in_at : Nat
  checked_in_by : String
deriving DecidableEq, Repr

/-- An application user (the registrar principal). -/
structure User where
  id : String
  email : String
  role : String
  district : Option String
deriving DecidableEq, Repr

/-- The result record returned by the check-in operations. -/
structure CheckInResult where
  success : Bool
  message : String
  code : Option String
deriving DecidableEq, Repr

/-- A financial entry (event-scoped amount). -/
structure FinancialEntry where
  event_id : String
  amount : Int
deriving DecidableEq, Repr

/-- One entry of the recent-activity feed built by `getStats`. -/
structure RecentEntry where
  event_id : String
  delegate_id : String
  session_id : Option String
  checked_in_at : Nat
  checked_in_by : String
  delegate_name : String
  district : String
  rank : String
  office : String
deriving DecidableEq, Repr

/-- The dashboard statistics record.  The two `Record<string, number>`
charts are modelled as total count functions (absent key = 0). -/
structure DashboardStats where
  totalDelegates : Nat
  totalCheckIns : Nat
  totalFinancials : Int
  checkInsByRank : String → Nat
  checkInsByDistrict : String → Nat
  recentActivity : List RecentEntry

/-- One annotated row returned by `searchDelegates`. -/
structure SearchResult where
  delegate : Delegate
  checkedIn : Bool
  code : String
deriving DecidableEq, Repr

/-- The persisted state visible to the embedded operations. -/
structure DB where
  delegates : List Delegate
  checkins : List CheckIn
  financials : List FinancialEntry
deriving DecidableEq, Repr

/-! ### Error handling -/

/-- Decidable equality of `Except` results, so that concrete runs of the
embedded operations can be checked by evaluation. -/
instance {ε α : Type} [DecidableEq ε] [DecidableEq α] : DecidableEq (Except ε α) :=
  fun x y =>
    match x, y with
    | Except.error a, Except.error b =>
      if h : a = b then isTrue (by rw [h]) else isFalse (fun hh => h (Except.error.inj hh))
    | Except.ok a, Except.ok b =>
      if h : a = b then isTrue (by rw [h]) else isFalse (fun hh => h (Except.ok.inj hh))
    | Except.error _, Except.ok _ => isFalse (fun hh => Except.noConfusion hh)
    | Except.ok _, Except.error _ => isFalse (fun hh => Except.noConfusion hh)

/-- A persistence-layer error object (message, details, hint). -/
structure SbError where
  message : String
  details : String
  hint : String
deriving DecidableEq, Repr

/-- Does the second list start the first? -/
def startsWithChars : List Char → List Char → Bool
  | _, [] => true
  | [], _ :: _ => false
  | a :: as, b :: bs => a == b && startsWithChars as bs

/-- Does `hay` contain `pat` as a contiguous run? -/
def containsChars (hay pat : List Char) : Bool :=
  match hay with
  | [] => pat.isEmpty
  | _ :: rest => startsWithChars hay pat || containsChars rest pat

/-- Substring test: does `hay` contain `pat`? (JavaScript `includes`). -/
def includes (hay pat : String) : Bool := containsChars hay.data pat.data

/-- The message text assembled by `handleSupabaseError`:
backtick-template of message, details and hint, trimmed. -/
def combinedMsg (e : SbError) : String :=
  jsTrim (e.message ++ " " ++ e.details ++ " " ++ e.hint)

/-- The `handleSupabaseError` helper of `services/supabaseService.ts`,
restricted to its error branch: returns the message of the `Error` it
throws (session corruption, permission denial, or the generic
custom-prefixed message). -/
def handleSupabaseError (e : SbError) (customMessage : Option String) : String :=
  let msg := combinedMsg e
  let lowerMsg := jsToLower msg
  if includes lowerMsg "jwt expired" || includes lowerMsg "invalid token"
      || includes lowerMsg "refresh_token_not_found" then
    "SESSION_CORRUPTED"
  else if includes lowerMsg "row-level security" || includes lowerMsg "permission denied" then
    match customMessage with
    | some c => c ++ ": Access Denied (Check Roles & Permissions)"
    | none => "Access Denied: You do not have permission for this database operation."
  else
    match customMessage with
    | some c => c ++ ": " ++ msg
    | none => msg

/-! ### Session-scope resolution and the check-in engine -/

/-- The `safeSessionId` resolution of the source:
`(sessionId && sessionId.trim() !== "") ? sessionId : null`.  An absent,
empty or whitespace-only session id becomes null (no session). -/
def safeSessionId (sessionId : Option String) : Option String :=
  match sessionId with
  | some s => if s ≠ "" ∧ jsTrim s ≠ "" then some s else none
  | none => none

/-- The guard condition `!sessionId || sessionId.trim() === ""` used by
`checkInByCode`: true exactly when the session id is absent, empty or
whitespace-only. -/
def nullLikeSession (sessionId : Option String) : Bool :=
  match sessionId with
  | none => true
  | some s => s == "" || jsTrim s == ""

/-- The session predicate of the check-in row queries:
`.eq('session_id', s)` for a present session, `.is('session_id', null)`
for the null scope. -/
def matchesSession (c : CheckIn) (safe : Option String) : Bool :=
  match safe with
  | some s => c.session_id == some s
  | none => c.session_id == none

/-- The rows matching the existing-check-in lookup of `checkInDelegate`:
same event, same delegate, same resolved session scope. -/
def matchingRows (db : DB) (eventId delegateId : String) (safe : Option String) :
    List CheckIn :=
  db.checkins.filter
    (fun c => c.event_id == eventId && c.delegate_id == delegateId && matchesSession c safe)

/-- Supabase `maybeSingle`: a row when the result set is a singleton,
otherwise null (zero rows) or an ignored error (several rows, in which
case the destructured data is also null). -/
def maybeSingle (l : List α) : Option α := if l.length = 1 then l.head? else none

/-- Two check-in rows hit the same uniqueness-constraint tuple
(event id, delegate id, session id). -/
def sameTuple (a b : CheckIn) : Bool :=
  a.event_id == b.event_id && a.delegate_id == b.delegate_id && a.session_id == b.session_id

/-- The conflict error the persistence layer raises when an insert
violates the uniqueness constraint on check-ins. -/
def conflictError : SbError :=
  { message := "duplicate key value violates unique constraint \"checkins_event_delegate_session_key\"",
    details := "", hint := "" }

/-- Insert of a check-in row against the store's uniqueness constraint on
(event id, delegate id, session id): a conflicting row makes the insert
fail and leaves the state unchanged. -/
def insertCheckIn (db : DB) (row : CheckIn) : Except SbError DB :=
  if db.checkins.any (fun c => sameTuple c row) then Except.error conflictError
  else Except.ok { db with checkins := db.checkins ++ [row] }

/-- The `checkInDelegate` operation with the interleaving point between
its two awaits made explicit: the existing-row lookup reads the snapshot
`dbLookup`, the insert runs against the (possibly newer) state
`dbInsert`.  Returns the result (or the thrown error message) and the
resulting state. -/
def checkInDelegateRace (dbLookup dbInsert : DB) (eventId delegateId : String)
    (registrar : User) (sessionId : Option String) (now : Nat) :
    Except String CheckInResult × DB :=
  if eventId = "" ∨ delegateId = "" then (Except.error "Context required.", dbInsert)
  else
    let safe := safeSessionId sessionId
    let code := generateCode delegateId eventId
    match maybeSingle (matchingRows dbLookup eventId delegateId safe) with
    | some _ =>
      (Except.ok { success := true, message := "Already Verified", code := some code }, dbInsert)
    | none =>
      match insertCheckIn dbInsert
          { event_id := eventId, delegate_id := delegateId, session_id := safe,
            checked_in_at := now, checked_in_by := registrar.id } with
      | Except.error e =>
        (Except.error (handleSupabaseError e (some "Verification Rejected")), dbInsert)
      | Except.ok db2 =>
        (Except.ok { success := true, message := "Verification Confirmed", code := some code }, db2)

/-- The `checkInDelegate` operation of `services/supabaseService.ts` run
without interference: both awaits observe the same state. -/
def checkInDelegate (db : DB) (eventId delegateId : String) (registrar : User)
    (sessionId : Option String) (now : Nat) : Except String CheckInResult × DB :=
  checkInDelegateRace db db eventId delegateId registrar sessionId now

/-- The `checkInByCode` operation of `services/supabaseService.ts`: fast
code-based check-in, session-mandatory, with the candidate pool
pre-filtered to the registrar's district for district-scoped registrars.
The source guards the query filter with `if (districtFilter)`, so an
empty normalized district (a whitespace-only district string) is falsy
and the pool is not filtered at all. -/
def checkInByCode (db : DB) (eventId code : String) (registrar : User)
    (sessionId : Option String) (now : Nat) : Except String CheckInResult × DB :=
  if eventId = "" ∨ code = "" then (Except.error "Context Required", db)
  else if nullLikeSession sessionId then
    (Except.error "Fast Check-in restricted to sessions.", db)
  else
    let isScoped := jsToLower registrar.role == "registrar"
      && (match registrar.district with | some d => d ≠ "" | none => false : Bool)
    let districtFilter : Option String :=
      if isScoped then some (normalize registrar.district) else none
    let pool : List Delegate := match districtFilter with
      | some f =>
        if f ≠ "" then db.delegates.filter (fun d => d.district == f) else db.delegates
      | none => db.delegates
    match pool.find? (fun d => generateCode d.delegate_id eventId == code) with
    | none =>
      (Except.ok { success := false,
                   message := "Invalid code or district unauthorized.",
                   code := none }, db)
    | some m => checkInDelegate db eventId m.delegate_id registrar sessionId now

/-! ### Search layer -/

/-- Case-insensitive substring match, modelling `ilike '%query%'`. -/
def ilikeContains (hay needle : String) : Bool :=
  containsChars (jsToLower hay).data (jsToLower needle).data

/-- The `searchDelegates` operation of `services/supabaseService.ts`:
optional exact district filter (normalized), partial name/phone match for
queries longer than one character, result capped at 100 rows, each row
annotated with its check-in status under the resolved session scope and
its derived code. -/
def searchDelegates (db : DB) (query eventId : String) (district : Option String)
    (sessionId : Option String) : List SearchResult :=
  if eventId = "" then []
  else
    let safe := safeSessionId sessionId
    let afterDistrict : List Delegate := match district with
      | some d =>
        if d ≠ "" ∧ jsTrim d ≠ "" then
          db.delegates.filter (fun x => x.district == normalize (some d))
        else db.delegates
      | none => db.delegates
    let afterQuery :=
      if query ≠ "" ∧ query.length > 1 then
        afterDistrict.filter (fun x =>
          ilikeContains x.first_name query || ilikeContains x.last_name query
            || ilikeContains x.phone query)
      else afterDistrict
    let delegates := afterQuery.take 100
    if delegates.isEmpty then []
    else
      let ids := delegates.map Delegate.delegate_id
      let hits : List CheckIn := db.checkins.filter (fun c =>
        c.event_id == eventId && ids.contains c.delegate_id && matchesSession c safe)
      let checkedInSet := hits.map CheckIn.delegate_id
      delegates.map (fun d =>
        { delegate := d, checkedIn := checkedInSet.contains d.delegate_id,
          code := generateCode d.delegate_id eventId })

/-! ### Aggregation engine (getStats) -/

/-- JavaScript `a || b` on strings: the empty string is falsy. -/
def jsOr (a b : String) : String := if a = "" then b else a

/-- The check-in rows of one event (the `.eq('event_id', ...)` fetch). -/
def eventCheckins (db : DB) (eventId : String) : List CheckIn :=
  db.checkins.filter (fun c => c.event_id == eventId)

/-- Insertion step of the descending order on check-in timestamps used by
the `.order('checked_in_at', { ascending: false })` fetch. -/
def insertByTimeDesc (c : CheckIn) : List CheckIn → List CheckIn
  | [] => [c]
  | x :: xs => if c.checked_in_at ≤ x.checked_in_at then x :: insertByTimeDesc c xs
    else c :: x :: xs

/-- Sorts check-in rows most-recent-first. -/
def sortByTimeDesc (l : List CheckIn) : List CheckIn := l.foldr insertByTimeDesc []

/-- The normalized, uppercased district filter of `getStats`
(`district ? normalize(district).toUpperCase() : null`; an empty district
argument is falsy and yields null).  A whitespace-only district argument
is truthy and yields the empty normalized filter, which every use site
below re-checks for truthiness (`if (normalizedFilter)`), disabling
filtering. -/
def normalizedFilter (district : Option String) : Option String :=
  match district with
  | some d => if d = "" then none else some (jsToUpper (normalize (some d)))
  | none => none

/-- The recent-activity entry built from a check-in row and its delegate
row. -/
def activityEntry (c : CheckIn) (d : Delegate) : RecentEntry :=
  { event_id := c.event_id, delegate_id := c.delegate_id, session_id := c.session_id,
    checked_in_at := c.checked_in_at, checked_in_by := c.checked_in_by,
    delegate_name := d.first_name ++ " " ++ d.last_name,
    district := d.district, rank := jsOr d.rank "-", office := jsOr d.office "-" }

/-- The `uniqueActivityMap` fold of `getStats`: walk the fetched check-in
rows, join each to its delegate row (dropping orphans), drop rows whose
delegate fails the district filter, and keep the first row per delegate
id in insertion order. -/
def uniqueActivity (checkins : List CheckIn) (delegates : List Delegate)
    (nf : Option String) : List RecentEntry :=
  checkins.foldl (fun acc c =>
    match delegates.find? (fun del => del.delegate_id == c.delegate_id) with
    | none => acc
    | some d =>
      let delDistrict := jsToUpper (normalize (some d.district))
      if (match nf with | some f => f != "" && delDistrict != f | none => false : Bool) then
        acc
      else if acc.any (fun e => e.delegate_id == c.delegate_id) then acc
      else acc ++ [activityEntry c d]) []

/-- The delegate pool after the optional district filter of `getStats`
(normalized, uppercased comparison).  The source guards the filter with
`if (normalizedFilter)`, so an empty normalized filter (whitespace-only
district argument) is falsy and no filtering happens. -/
def filteredOf (delegates : List Delegate) (district : Option String) : List Delegate :=
  match normalizedFilter district with
  | none => delegates
  | some f =>
    if f ≠ "" then delegates.filter (fun d => jsToUpper (normalize (some d.district)) == f)
    else delegates

/-- The delegates counted as attended by `getStats`: filtered delegates
whose id occurs among the fetched check-in rows. -/
def attendedOf (checkins : List CheckIn) (delegates : List Delegate)
    (district : Option String) : List Delegate :=
  (filteredOf delegates district).filter
    (fun d => (checkins.map CheckIn.delegate_id).contains d.delegate_id)

/-- One increment of a `Record<string, number>` chart:
`m[key] = (m[key] || 0) + 1`. -/
def bump (m : String → Nat) (k : String) : String → Nat :=
  fun x => if x == k then m k + 1 else m x

/-- The pure aggregation body of `getStats`, applied to the fetched
check-in rows (event-filtered, time-descending), the fetched delegate
rows, the fetched financial amounts and the district filter. -/
def getStatsCore (checkins : List CheckIn) (delegates : List Delegate)
    (amounts : List Int) (district : Option String) : DashboardStats :=
  let nf := normalizedFilter district
  let recent := (uniqueActivity checkins delegates nf).take 10
  let fd := filteredOf delegates district
  let attended := attendedOf checkins delegates district
  { totalDelegates := fd.length
    totalCheckIns := attended.length
    totalFinancials := amounts.foldl (fun s a => s + a) 0
    checkInsByRank := attended.foldl (fun m d => bump m (jsOr d.rank "Unknown")) (fun _ => 0)
    checkInsByDistrict :=
      attended.foldl (fun m d => bump m (jsOr d.district "Unknown")) (fun _ => 0)
    recentActivity := recent }

/-- The `getStats` operation of `services/supabaseService.ts` against a
store that returns each query's full result set. -/
def getStats (db : DB) (eventId : String) (district : Option String) : DashboardStats :=
  getStatsCore (sortByTimeDesc (eventCheckins db eventId)) db.delegates
    ((db.financials.filter (fun f => f.event_id == eventId)).map FinancialEntry.amount)
    district

/-- The `getStats` operation against a store that truncates every query
response to its first page of `pageSize` rows.  The source issues exactly
one query per table and never continues to later pages, so it aggregates
over these truncated lists. -/
def getStatsPaged (db : DB) (pageSize : Nat) (eventId : String)
    (district : Option String) : DashboardStats :=
  getStatsCore ((sortByTimeDesc (eventCheckins db eventId)).take pageSize)
    (db.delegates.take pageSize)
    (((db.financials.filter (fun f => f.event_id == eventId)).take pageSize).map
      FinancialEntry.amount)
    district

/-- Modelled from the spec wording of claim C2, for comparison with the
aggregation code: the physical-identity deduplication key — normalized,
uppercased first name, last name, district and rank. -/
def identityKey (d : Delegate) : String :=
  jsToUpper (normalize (some d.first_name)) ++ "|" ++ jsToUpper (normalize (some d.last_name))
    ++ "|" ++ jsToUpper (normalize (some d.district)) ++ "|" ++ jsToUpper (normalize (some d.rank))

/-! ### Invariants and helper measures -/

/-- The store's uniqueness invariant: no two persisted check-in rows hit
the same (event id, delegate id, session id) tuple. -/
def uniqueCheckins (db : DB) : Prop :=
  db.checkins.Pairwise (fun a b => sameTuple a b = false)

/-- The number of persisted check-in rows for one
(event, delegate, resolved session) tuple. -/
def countMatching (db : DB) (eventId delegateId : String) (safe : Option String) : Nat :=
  (matchingRows db eventId delegateId safe).length

/-! ### Concrete data for witnesses and counterexamples -/

/-- A delegate row with the fields the claims exercise. -/
def mkDelegate (i fn ln dist rank : String) : Delegate :=
  { delegate_id := i, title := "Mr", first_name := fn, last_name := ln,
    chapter := "", district := dist, email := "", phone := "", rank := rank,
    office := "OTHER" }

/-- An unscoped admin principal. -/
def regAdmin : User := { id := "u-admin", email := "admin@x", role := "admin", district := none }

/-- A registrar scoped to the district "Lagos". -/
def regLagos : User :=
  { id := "u-lagos", email := "reg@x", role := "registrar", district := some "Lagos" }

/-- Two delegate rows with different ids but the same normalized,
uppercased (first name, last name, district, rank) identity. -/
def delegateJane1 : Delegate := mkDelegate "p1" "Jane" "Doe" "Lagos" "CP"

/-- The second row of the duplicated identity (leading space and case
difference in the first name disappear under normalization). -/
def delegateJane2 : Delegate := mkDelegate "p2" " jane" "Doe" "Lagos" "CP"

/-- A database where the duplicated identity has one check-in row per
delegate id under event "E1". -/
def dbDupIdentity : DB :=
  { delegates := [delegateJane1, delegateJane2],
    checkins :=
      [ { event_id := "E1", delegate_id := "p1", session_id := none,
          checked_in_at := 2, checked_in_by := "u-admin" },
        { event_id := "E1", delegate_id := "p2", session_id := none,
          checked_in_at := 1, checked_in_by := "u-admin" } ],
    financials := [] }

/-- A delegate of district "Abuja" whose derived code for event "E1" is
"5431". -/
def delegateAbuja : Delegate := mkDelegate "aa" "Ade" "Abu" "Abuja" "CP"

/-- A delegate of district "Lagos" whose id "hbp" derives the same code
"5431" for event "E1" as the Abuja delegate (a code collision across
districts). -/
def delegateLagosColl : Delegate := mkDelegate "hbp" "Bola" "Lag" "Lagos" "CP"

/-- A database holding the colliding pair. -/
def dbCollision : DB :=
  { delegates := [delegateAbuja, delegateLagosColl], checkins := [], financials := [] }

/-- A database holding only the Abuja delegate. -/
def dbAbujaOnly : DB :=
  { delegates := [delegateAbuja], checkins := [], financials := [] }

/-- An empty database. -/
def dbEmpty : DB := { delegates := [], checkins := [], financials := [] }

/-- A database already holding the null-session check-in row of event
"E1" and delegate "aa". -/
def dbWithRow : DB :=
  { delegates := [],
    checkins :=
      [ { event_id := "E1", delegate_id := "aa", session_id := none,
          checked_in_at := 0, checked_in_by := "u-x" } ],
    financials := [] }

/-- A database with two Lagos delegates, each with one check-in row under
event "E1". -/
def dbTwoAttended : DB :=
  { delegates := [mkDelegate "a1" "Ann" "One" "Lagos" "CP",
                  mkDelegate "b1" "Ben" "Two" "Lagos" "CP"],
    checkins :=
      [ { event_id := "E1", delegate_id := "a1", session_id := none,
          checked_in_at := 5, checked_in_by := "u-admin" },
        { event_id := "E1", delegate_id := "b1", session_id := none,
          checked_in_at := 3, checked_in_by := "u-admin" } ],
    financials := [] }

/-- A database holding one Lagos delegate and no check-ins. -/
def dbOneDelegate : DB :=
  { delegates := [delegateJane1], checkins := [], financials := [] }

/-! ## Theorems -/

theorem toInt32_congr {a b : Int} (h : a % 4294967296 = b % 4294967296) :
    toInt32 a = toInt32 b := by
  unfold toInt32
  rw [h]

theorem toInt32_emod (a : Int) : toInt32 a % 4294967296 = a % 4294967296 := by
  unfold toInt32
  dsimp only
  split <;> omega

theorem hashStep_eq_spec (h : Int) (c : Nat) : hashStep h c = specHashStep h c := by
  unfold hashStep specHashStep
  apply toInt32_congr
  have := toInt32_emod (h * 32)
  omega

theorem hashUnits_eq_spec (s : List Nat) : hashUnits s = specHash s := by
  unfold hashUnits specHash
  exact List.foldl_ext _ _ _ (fun a b _ => hashStep_eq_spec a b)

theorem padStart_length (n : Nat) (c : Char) (s : String) :
    (padStart n c s).length = max n s.length := by
  simp only [padStart, String.length, List.length_append, List.length_replicate]
  omega

/-- C1: for every pair of non-empty strings (as UTF-16 code-unit
sequences), `generateCodeFromId` returns the 4-character zero-padded
decimal string of `(abs(h) % 9999) + 1`, where `h` is the 32-bit signed
rolling hash `hash = hash*31 + charCode` (wrapping to signed 32-bit after
each step) over the concatenation of the two identifiers; when either
input is empty it returns "0000".  Stated as: the source definition
coincides with the spec-worded definition on all inputs, and the result
always has exactly 4 characters. -/
theorem generateCodeFromId_matches_spec (delegateId eventId : List Nat) :
    generateCodeFromId delegateId eventId = specDeriveCode delegateId eventId ∧
    (generateCodeFromId delegateId eventId).length = 4 := by
  constructor
  · unfold generateCodeFromId specDeriveCode
    rw [hashUnits_eq_spec]
  · unfold generateCodeFromId
    by_cases h : delegateId = [] ∨ eventId = []
    · rw [if_pos h]; rfl
    · rw [if_neg h, padStart_length]
      have h1 : (hashUnits (delegateId ++ eventId)).natAbs % 9999 + 1 < 10 ^ 4 := by
        have := Nat.mod_lt (hashUnits (delegateId ++ eventId)).natAbs (show 0 < 9999 by norm_num)
        norm_num
        omega
      have := Nat.repr_length ((hashUnits (delegateId ++ eventId)).natAbs % 9999 + 1) 4
        (by norm_num) h1
      omega

/-! ### Check-in engine lemmas -/

theorem matchesSession_eq (c : CheckIn) (safe : Option String) :
    matchesSession c safe = (c.session_id == safe) := by
  cases safe <;> rfl

theorem sameTuple_iff {a b : CheckIn} :
    sameTuple a b = true ↔
      a.event_id = b.event_id ∧ a.delegate_id = b.delegate_id ∧
        a.session_id = b.session_id := by
  unfold sameTuple
  simp [Bool.and_eq_true, beq_iff_eq, and_assoc]

theorem mem_matchingRows {db : DB} {e d : String} {safe : Option String} {c : CheckIn} :
    c ∈ matchingRows db e d safe ↔
      c ∈ db.checkins ∧ c.event_id = e ∧ c.delegate_id = d ∧ c.session_id = safe := by
  unfold matchingRows
  rw [List.mem_filter]
  simp [matchesSession_eq, Bool.and_eq_true, beq_iff_eq, and_assoc]

theorem matchingRows_length_le_one (db : DB) (e d : String) (safe : Option String)
    (hu : uniqueCheckins db) : (matchingRows db e d safe).length ≤ 1 := by
  have hp : (matchingRows db e d safe).Pairwise (fun a b => sameTuple a b = false) :=
    List.Pairwise.filter _ hu
  match hM : matchingRows db e d safe with
  | [] => simp
  | [x] => simp
  | x :: y :: rest =>
    exfalso
    rw [hM] at hp
    have hxy : sameTuple x y = false := (List.pairwise_cons.mp hp).1 y (by simp)
    have hx : x ∈ matchingRows db e d safe := by rw [hM]; simp
    have hy : y ∈ matchingRows db e d safe := by rw [hM]; simp
    rw [mem_matchingRows] at hx hy
    have : sameTuple x y = true := sameTuple_iff.mpr
      ⟨hx.2.1.trans hy.2.1.symm, hx.2.2.1.trans hy.2.2.1.symm, hx.2.2.2.trans hy.2.2.2.symm⟩
    rw [this] at hxy
    simp at hxy

theorem maybeSingle_some_length {l : List α} {x : α} (h : maybeSingle l = some x) :
    l.length = 1 := by
  unfold maybeSingle at h
  split at h
  · assumption
  · exact absurd h (by simp)

theorem maybeSingle_of_singleton (x : α) : maybeSingle [x] = some x := rfl

theorem insertCheckIn_ok {db : DB} {row : CheckIn}
    (h : ∀ c ∈ db.checkins, sameTuple c row = false) :
    insertCheckIn db row = Except.ok { db with checkins := db.checkins ++ [row] } := by
  unfold insertCheckIn
  have hfalse : db.checkins.any (fun c => sameTuple c row) = false := by
    rw [List.any_eq_false]
    intro c hc
    simp [h c hc]
  simp [hfalse]

theorem insertCheckIn_conflict {db : DB} {row c : CheckIn}
    (hc : c ∈ db.checkins) (hs : sameTuple c row = true) :
    insertCheckIn db row = Except.error conflictError := by
  unfold insertCheckIn
  have htrue : db.checkins.any (fun c => sameTuple c row) = true :=
    List.any_eq_true.mpr ⟨c, hc, hs⟩
  simp [htrue]

/-- The freshly built check-in row of `checkInDelegate`. -/
theorem matchingRows_append_self (db : DB) (e d : String) (safe : Option String)
    (t : Nat) (by_ : String) :
    matchingRows
        { db with checkins := db.checkins ++
            [{ event_id := e, delegate_id := d, session_id := safe,
               checked_in_at := t, checked_in_by := by_ }] } e d safe
      = matchingRows db e d safe ++
        [{ event_id := e, delegate_id := d, session_id := safe,
           checked_in_at := t, checked_in_by := by_ }] := by
  unfold matchingRows
  rw [List.filter_append]
  congr 1
  simp [matchesSession_eq]

theorem matchingRows_nil_of_unique {db : DB} {e d : String} {safe : Option String}
    (hu : uniqueCheckins db)
    (hn : maybeSingle (matchingRows db e d safe) = none) :
    matchingRows db e d safe = [] := by
  have hle := matchingRows_length_le_one db e d safe hu
  unfold maybeSingle at hn
  split at hn
  · rename_i hlen1
    rw [List.head?_eq_none_iff] at hn
    rw [hn] at hlen1
    simp at hlen1
  · rename_i hlen
    have h0 : (matchingRows db e d safe).length = 0 := by omega
    exact List.length_eq_zero.mp h0

/-- C3: `checkInDelegate` is idempotent.  Calling it twice with the same
(event, delegate, session) on a store satisfying the uniqueness invariant
succeeds both times; the second call answers "Already Verified" with the
derived code, writes nothing, and exactly one check-in row exists for the
(event, delegate, resolved-session) tuple afterwards. -/
theorem checkInDelegate_idempotent (db : DB) (e d : String) (reg : User)
    (s : Option String) (t1 t2 : Nat)
    (he : e ≠ "") (hd : d ≠ "") (hu : uniqueCheckins db) :
    ∃ r1 db1 r2 db2,
      checkInDelegate db e d reg s t1 = (Except.ok r1, db1) ∧
      checkInDelegate db1 e d reg s t2 = (Except.ok r2, db2) ∧
      r1.success = true ∧ r2.success = true ∧
      r2.message = "Already Verified" ∧
      r2.code = some (generateCode d e) ∧
      db2 = db1 ∧
      countMatching db1 e d (safeSessionId s) = 1 := by
  have hguard : ¬(e = "" ∨ d = "") := by tauto
  cases hM : maybeSingle (matchingRows db e d (safeSessionId s)) with
  | some x =>
    have hc1 : checkInDelegate db e d reg s t1
        = (Except.ok { success := true, message := "Already Verified",
                       code := some (generateCode d e) }, db) := by
      unfold checkInDelegate checkInDelegateRace
      rw [if_neg hguard]
      dsimp only
      rw [hM]
    have hc2 : checkInDelegate db e d reg s t2
        = (Except.ok { success := true, message := "Already Verified",
                       code := some (generateCode d e) }, db) := by
      unfold checkInDelegate checkInDelegateRace
      rw [if_neg hguard]
      dsimp only
      rw [hM]
    exact ⟨_, db, _, db, hc1, hc2, rfl, rfl, rfl, rfl, rfl, maybeSingle_some_length hM⟩
  | none =>
    have hnil := matchingRows_nil_of_unique hu hM
    set row : CheckIn :=
      { event_id := e, delegate_id := d, session_id := safeSessionId s,
        checked_in_at := t1, checked_in_by := reg.id } with hrow
    have hnomem : ∀ c ∈ db.checkins, sameTuple c row = false := by
      intro c hc
      by_contra hcontra
      have htrue : sameTuple c row = true := by
        cases h : sameTuple c row
        · exact absurd h hcontra
        · rfl
      have hcmem : c ∈ matchingRows db e d (safeSessionId s) := by
        rw [mem_matchingRows]
        have hst := sameTuple_iff.mp htrue
        exact ⟨hc, hst.1, hst.2.1, hst.2.2⟩
      rw [hnil] at hcmem
      exact absurd hcmem (List.not_mem_nil c)
    have hins := insertCheckIn_ok hnomem
    have hc1 : checkInDelegate db e d reg s t1
        = (Except.ok { success := true, message := "Verification Confirmed",
                       code := some (generateCode d e) },
           { db with checkins := db.checkins ++ [row] }) := by
      unfold checkInDelegate checkInDelegateRace
      rw [if_neg hguard]
      dsimp only
      rw [hM, hins]
    have happ0 := matchingRows_append_self db e d (safeSessionId s) t1 reg.id
    rw [hnil] at happ0
    have happ : matchingRows { db with checkins := db.checkins ++ [row] } e d
        (safeSessionId s) = [row] := happ0
    have hc2 : checkInDelegate { db with checkins := db.checkins ++ [row] } e d reg s t2
        = (Except.ok { success := true, message := "Already Verified",
                       code := some (generateCode d e) },
           { db with checkins := db.checkins ++ [row] }) := by
      unfold checkInDelegate checkInDelegateRace
      rw [if_neg hguard]
      dsimp only
      rw [happ, maybeSingle_of_singleton]
    refine ⟨_, _, _, _, hc1, hc2, rfl, rfl, rfl, rfl, rfl, ?_⟩
    unfold countMatching
    rw [happ]
    rfl

/-- Witness for C3: the idempotence theorem applied to a fresh empty
store, event "E1", delegate "aa", null session. -/
theorem checkInDelegate_idempotent_witness :
    ("E1" : String) ≠ "" ∧ ("aa" : String) ≠ "" ∧ uniqueCheckins dbEmpty ∧
    (∃ r1 db1 r2 db2,
      checkInDelegate dbEmpty "E1" "aa" regAdmin none 0 = (Except.ok r1, db1) ∧
      checkInDelegate db1 "E1" "aa" regAdmin none 1 = (Except.ok r2, db2) ∧
      r1.success = true ∧ r2.success = true ∧
      r2.message = "Already Verified" ∧
      r2.code = some (generateCode "aa" "E1") ∧
      db2 = db1 ∧
      countMatching db1 "E1" "aa" (safeSessionId none) = 1) :=
  ⟨by decide, by decide, List.Pairwise.nil,
   checkInDelegate_idempotent dbEmpty "E1" "aa" regAdmin none 0 1
     (by decide) (by decide) List.Pairwise.nil⟩

/-- C4 counterexample: with the lookup observing a snapshot without the
row and the insert racing against a state that already holds the
(event, delegate, session) tuple, `checkInDelegate` throws
"Verification Rejected: ..." instead of returning an already-verified
success, refuting the claim that the conflict is normalized to
success. -/
theorem conflict_counterexample :
    checkInDelegateRace dbEmpty dbWithRow "E1" "aa" regAdmin none 1
      = (Except.error "Verification Rejected: duplicate key value violates unique constraint \"checkins_event_delegate_session_key\"",
         dbWithRow) ∧
    ∀ r : CheckInResult,
      (checkInDelegateRace dbEmpty dbWithRow "E1" "aa" regAdmin none 1).1
        ≠ Except.ok r := by
  refine ⟨by decide, ?_⟩
  intro r h
  rw [show (checkInDelegateRace dbEmpty dbWithRow "E1" "aa" regAdmin none 1).1
      = Except.error "Verification Rejected: duplicate key value violates unique constraint \"checkins_event_delegate_session_key\"" from by decide] at h
  exact absurd h (by simp)

/-- C4 as amended: when the insert of `checkInDelegate` hits the
uniqueness constraint (a concurrent check-in won the race for the same
tuple), the operation propagates the conflict as a thrown
"Verification Rejected" error and leaves the store unchanged; it does not
return an already-verified success. -/
theorem conflict_propagates_error (dbLookup dbInsert : DB) (e d : String)
    (reg : User) (s : Option String) (t : Nat)
    (he : e ≠ "") (hd : d ≠ "")
    (hmiss : matchingRows dbLookup e d (safeSessionId s) = [])
    (hconflict : ∃ c ∈ dbInsert.checkins,
      sameTuple c { event_id := e, delegate_id := d, session_id := safeSessionId s,
                    checked_in_at := t, checked_in_by := reg.id } = true) :
    checkInDelegateRace dbLookup dbInsert e d reg s t
      = (Except.error (handleSupabaseError conflictError (some "Verification Rejected")),
         dbInsert) := by
  have hguard : ¬(e = "" ∨ d = "") := by tauto
  unfold checkInDelegateRace
  rw [if_neg hguard]
  dsimp only
  have hM : maybeSingle (matchingRows dbLookup e d (safeSessionId s)) = none := by
    rw [hmiss]; rfl
  rw [hM]
  obtain ⟨c, hc, hs⟩ := hconflict
  rw [insertCheckIn_conflict hc hs]

/-- Witness for the amended C4 at the concrete race of the
counterexample. -/
theorem conflict_propagates_error_witness :
    ("E1" : String) ≠ "" ∧ ("aa" : String) ≠ "" ∧
    matchingRows dbEmpty "E1" "aa" (safeSessionId none) = [] ∧
    (∃ c ∈ dbWithRow.checkins,
      sameTuple c { event_id := "E1", delegate_id := "aa",
                    session_id := safeSessionId none,
                    checked_in_at := 1, checked_in_by := regAdmin.id } = true) ∧
    checkInDelegateRace dbEmpty dbWithRow "E1" "aa" regAdmin none 1
      = (Except.error (handleSupabaseError conflictError (some "Verification Rejected")),
         dbWithRow) :=
  ⟨by decide, by decide, by decide, by decide,
   conflict_propagates_error dbEmpty dbWithRow "E1" "aa" regAdmin none 1
     (by decide) (by decide) (by decide) (by decide)⟩

theorem safeSessionId_eq_none_iff (s : Option String) :
    safeSessionId s = none ↔ nullLikeSession s = true := by
  cases s with
  | none => simp [safeSessionId, nullLikeSession]
  | some v =>
    simp only [safeSessionId, nullLikeSession, Bool.or_eq_true, beq_iff_eq]
    split_ifs with h
    · simp only [reduceCtorEq, false_iff]
      tauto
    · simp only [true_iff]
      tauto

/-- Every check-in row present after a `checkInDelegate` call was either
already persisted or carries the resolved session scope of the call. -/
theorem checkInDelegate_checkins_sub (db : DB) (e d : String) (reg : User)
    (s : Option String) (t : Nat) :
    ∀ c ∈ (checkInDelegate db e d reg s t).2.checkins,
      c ∈ db.checkins ∨ c.session_id = safeSessionId s := by
  intro c hc
  unfold checkInDelegate checkInDelegateRace at hc
  by_cases hg : e = "" ∨ d = ""
  · rw [if_pos hg] at hc
    exact Or.inl hc
  · rw [if_neg hg] at hc
    dsimp only at hc
    cases hM : maybeSingle (matchingRows db e d (safeSessionId s)) with
    | some x =>
      rw [hM] at hc
      exact Or.inl hc
    | none =>
      rw [hM] at hc
      unfold insertCheckIn at hc
      cases hconf : db.checkins.any (fun c2 => sameTuple c2
          { event_id := e, delegate_id := d, session_id := safeSessionId s,
            checked_in_at := t, checked_in_by := reg.id }) with
      | true =>
        simp only [hconf] at hc
        exact Or.inl hc
      | false =>
        simp only [hconf, Bool.false_eq_true, if_false] at hc
        rcases List.mem_append.mp hc with h | h
        · exact Or.inl h
        · right
          simp only [List.mem_singleton] at h
          rw [h]

/-- C10: `checkInByCode` refuses fast code-based check-in without a
session.  Whenever the session id is absent, empty or whitespace-only it
throws (with message "Fast Check-in restricted to sessions." once the
context guard is passed) and the store is untouched; consequently a
code-based check-in can never create a null-session check-in row. -/
theorem checkInByCode_requires_session (db : DB) (e code : String) (reg : User)
    (s : Option String) (t : Nat) :
    (nullLikeSession s = true → e ≠ "" → code ≠ "" →
      checkInByCode db e code reg s t
        = (Except.error "Fast Check-in restricted to sessions.", db)) ∧
    (nullLikeSession s = true → (checkInByCode db e code reg s t).2 = db) ∧
    (∀ c ∈ (checkInByCode db e code reg s t).2.checkins,
      c ∈ db.checkins ∨ c.session_id ≠ none) := by
  refine ⟨?_, ?_, ?_⟩
  · intro hnull he hcode
    unfold checkInByCode
    rw [if_neg (show ¬(e = "" ∨ code = "") by tauto)]
    simp [hnull]
  · intro hnull
    unfold checkInByCode
    by_cases hg : e = "" ∨ code = ""
    · rw [if_pos hg]
    · rw [if_neg hg]
      simp [hnull]
  · intro c hc
    unfold checkInByCode at hc
    by_cases hg : e = "" ∨ code = ""
    · rw [if_pos hg] at hc
      exact Or.inl hc
    · rw [if_neg hg] at hc
      cases hnull : nullLikeSession s with
      | true =>
        simp only [hnull, if_true] at hc
        exact Or.inl hc
      | false =>
        simp only [hnull, Bool.false_eq_true, if_false] at hc
        split at hc
        · exact Or.inl hc
        · rcases checkInDelegate_checkins_sub db e _ reg s t c hc with h | h
          · exact Or.inl h
          · right
            rw [h]
            intro hnone
            have := (safeSessionId_eq_none_iff s).mp hnone
            rw [this] at hnull
            exact absurd hnull (by simp)

/-- C5 counterexample: the registrar scoped to "Lagos" submits the valid
code "5431" of the Abuja delegate "aa" for event "E1"; because the Lagos
delegate "hbp" derives the same code, the call returns success (checking
in the Lagos delegate) instead of the claimed `{success:false}` with a
district-mismatch message. -/
theorem checkInByCode_cross_district_counterexample :
    delegateAbuja ∈ dbCollision.delegates ∧
    generateCode delegateAbuja.delegate_id "E1" = "5431" ∧
    jsToLower regLagos.role = "registrar" ∧
    regLagos.district = some "Lagos" ∧
    jsToUpper (normalize (some delegateAbuja.district))
      ≠ jsToUpper (normalize regLagos.district) ∧
    (checkInByCode dbCollision "E1" "5431" regLagos (some "S1") 7).1
      = Except.ok { success := true, message := "Verification Confirmed",
                    code := some "5431" } ∧
    (checkInByCode dbCollision "E1" "5431" regLagos (some "S1") 7).2.checkins
      = [{ event_id := "E1", delegate_id := "hbp", session_id := some "S1",
           checked_in_at := 7, checked_in_by := "u-lagos" }] := by decide

/-- C5 as amended: for a district-scoped registrar whose normalized
district is non-empty, a valid code belonging to a delegate of a
different (case-insensitively normalized) district is rejected with
`{success:false}` and the shared message
"Invalid code or district unauthorized.", with no check-in row created —
provided no delegate inside the registrar's district derives the same
code for the event (the query is pre-filtered to the registrar's
district, so a same-district code collision is checked in instead; and a
whitespace-only registrar district makes the filter falsy, so the code
owner is then checked in from the unfiltered pool). -/
theorem checkInByCode_cross_district_rejected (db : DB) (e code : String)
    (reg : User) (sv : String) (t : Nat) (d0 : Delegate)
    (he : e ≠ "") (hcode : code ≠ "") (hsv : jsTrim sv ≠ "")
    (hrole : jsToLower reg.role = "registrar")
    (hdist : ∃ rd, reg.district = some rd ∧ rd ≠ "")
    (hnorm : normalize reg.district ≠ "")
    (hd0 : d0 ∈ db.delegates)
    (hd0code : generateCode d0.delegate_id e = code)
    (hd0cross : jsToUpper (normalize (some d0.district))
      ≠ jsToUpper (normalize reg.district))
    (hnopool : ∀ dl ∈ db.delegates, dl.district = normalize reg.district →
      generateCode dl.delegate_id e ≠ code) :
    checkInByCode db e code reg (some sv) t
      = (Except.ok { success := false,
                     message := "Invalid code or district unauthorized.",
                     code := none }, db) := by
  obtain ⟨rd, hrd, hrdne⟩ := hdist
  have hsvne : sv ≠ "" := by
    intro h
    rw [h] at hsv
    exact hsv rfl
  have hnull : nullLikeSession (some sv) = false := by
    unfold nullLikeSession
    simp only [Bool.or_eq_false_iff, beq_eq_false_iff_ne, ne_eq]
    exact ⟨hsvne, hsv⟩
  have hfind : (db.delegates.filter
      (fun d => d.district == normalize reg.district)).find?
      (fun d => generateCode d.delegate_id e == code) = none := by
    rw [List.find?_eq_none]
    intro x hx
    rw [List.mem_filter] at hx
    have hxd : x.district = normalize reg.district := by
      have h2 := hx.2
      rwa [beq_iff_eq] at h2
    have := hnopool x hx.1 hxd
    simp [this]
  unfold checkInByCode
  rw [if_neg (show ¬(e = "" ∨ code = "") by tauto)]
  simp only [hnull, Bool.false_eq_true, if_false]
  rw [hrole, hrd]
  simp only [beq_self_eq_true, Bool.true_and, ne_eq, hrdne, not_false_eq_true,
    decide_True, if_true]
  rw [← hrd, if_pos hnorm, hfind]

/-- Witness for the amended C5: the Lagos registrar submitting the Abuja
delegate's code against a store whose Lagos pool has no matching code. -/
theorem checkInByCode_cross_district_rejected_witness :
    ("E1" : String) ≠ "" ∧ ("5431" : String) ≠ "" ∧ jsTrim "S1" ≠ "" ∧
    jsToLower regLagos.role = "registrar" ∧
    (∃ rd, regLagos.district = some rd ∧ rd ≠ "") ∧
    normalize regLagos.district ≠ "" ∧
    delegateAbuja ∈ dbAbujaOnly.delegates ∧
    generateCode delegateAbuja.delegate_id "E1" = "5431" ∧
    jsToUpper (normalize (some delegateAbuja.district))
      ≠ jsToUpper (normalize regLagos.district) ∧
    (∀ dl ∈ dbAbujaOnly.delegates, dl.district = normalize regLagos.district →
      generateCode dl.delegate_id "E1" ≠ "5431") ∧
    checkInByCode dbAbujaOnly "E1" "5431" regLagos (some "S1") 0
      = (Except.ok { success := false,
                     message := "Invalid code or district unauthorized.",
                     code := none }, dbAbujaOnly) :=
  ⟨by decide, by decide, by decide, by decide, by decide, by decide, by decide, by decide,
   by decide, by decide,
   checkInByCode_cross_district_rejected dbAbujaOnly "E1" "5431" regLagos "S1" 0
     delegateAbuja (by decide) (by decide) (by decide) (by decide) (by decide)
     (by decide) (by decide) (by decide) (by decide) (by decide)⟩

/-- A delegate in the first 100 unfiltered rows with a persisted
null-session check-in row for the event is reported as checked in by an
empty-query search under any null-like session id. -/
theorem searchDelegates_reports_checkedIn (db : DB) (e : String) (d : Delegate)
    (sq : Option String)
    (he : e ≠ "")
    (hmem : d ∈ db.delegates.take 100)
    (hsq : safeSessionId sq = none)
    (hrow : ∃ row ∈ db.checkins,
      row.event_id = e ∧ row.delegate_id = d.delegate_id ∧ row.session_id = none) :
    ∃ res ∈ searchDelegates db "" e none sq,
      res.delegate = d ∧ res.checkedIn = true := by
  obtain ⟨row, hrowmem, hre, hrd, hrs⟩ := hrow
  unfold searchDelegates
  rw [if_neg he]
  dsimp only
  rw [hsq]
  rw [if_neg (show ¬(("" : String) ≠ "" ∧ ("" : String).length > 1) by simp)]
  have hne : (db.delegates.take 100).isEmpty = false :=
    List.isEmpty_eq_false.mpr (List.ne_nil_of_mem hmem)
  rw [hne]
  simp only [Bool.false_eq_true, if_false]
  refine ⟨{ delegate := d,
            checkedIn := (List.filter
              (fun c => c.event_id == e
                && (List.map Delegate.delegate_id (db.delegates.take 100)).contains
                    c.delegate_id
                && matchesSession c none) db.checkins).map CheckIn.delegate_id
              |>.contains d.delegate_id,
            code := generateCode d.delegate_id e }, ?_, rfl, ?_⟩
  · exact List.mem_map_of_mem _ hmem
  · have hid : d.delegate_id ∈ List.map Delegate.delegate_id (db.delegates.take 100) :=
      List.mem_map_of_mem _ hmem
    have hrowfilter : row ∈ List.filter
        (fun c => c.event_id == e
          && (List.map Delegate.delegate_id (db.delegates.take 100)).contains c.delegate_id
          && matchesSession c none) db.checkins := by
      rw [List.mem_filter]
      refine ⟨hrowmem, ?_⟩
      simp only [Bool.and_eq_true, beq_iff_eq, matchesSession_eq]
      refine ⟨⟨hre, ?_⟩, by simp [hrs]⟩
      rw [hrd]
      exact List.elem_iff.mpr hid
    have : d.delegate_id ∈ (List.filter
        (fun c => c.event_id == e
          && (List.map Delegate.delegate_id (db.delegates.take 100)).contains c.delegate_id
          && matchesSession c none) db.checkins).map CheckIn.delegate_id := by
      rw [← hrd]
      exact List.mem_map_of_mem _ hrowfilter
    exact List.elem_iff.mpr this

/-- C6: null and empty session ids are the same scope.  A check-in
recorded with an absent, empty or whitespace-only session id succeeds,
and a subsequent empty-query search under any (possibly different)
null-like session id reports the delegate as checked in: both sides
resolve the scope to the null master-event-arrival session. -/
theorem nullSession_scope_equivalence (db : DB) (e : String) (d : Delegate)
    (reg : User) (sc sq : Option String) (t : Nat)
    (he : e ≠ "") (hdid : d.delegate_id ≠ "") (hu : uniqueCheckins db)
    (hmem : d ∈ db.delegates.take 100)
    (hsc : nullLikeSession sc = true) (hsq : nullLikeSession sq = true) :
    ∃ r db1,
      checkInDelegate db e d.delegate_id reg sc t = (Except.ok r, db1) ∧
      r.success = true ∧
      ∃ res ∈ searchDelegates db1 "" e none sq,
        res.delegate = d ∧ res.checkedIn = true := by
  have hsafec : safeSessionId sc = none := (safeSessionId_eq_none_iff sc).mpr hsc
  have hsafeq : safeSessionId sq = none := (safeSessionId_eq_none_iff sq).mpr hsq
  have hguard : ¬(e = "" ∨ d.delegate_id = "") := by tauto
  cases hM : maybeSingle (matchingRows db e d.delegate_id (safeSessionId sc)) with
  | some x =>
    have hc1 : checkInDelegate db e d.delegate_id reg sc t
        = (Except.ok { success := true, message := "Already Verified",
                       code := some (generateCode d.delegate_id e) }, db) := by
      unfold checkInDelegate checkInDelegateRace
      rw [if_neg hguard]
      dsimp only
      rw [hM]
    have hlen := maybeSingle_some_length hM
    have hnonempty : matchingRows db e d.delegate_id (safeSessionId sc) ≠ [] := by
      intro hcontra
      rw [hcontra] at hlen
      simp at hlen
    obtain ⟨row, hrowmem⟩ := List.exists_mem_of_ne_nil _ hnonempty
    rw [mem_matchingRows] at hrowmem
    refine ⟨_, db, hc1, rfl, ?_⟩
    apply searchDelegates_reports_checkedIn db e d sq he hmem hsafeq
    exact ⟨row, hrowmem.1, hrowmem.2.1, hrowmem.2.2.1, by rw [hrowmem.2.2.2, hsafec]⟩
  | none =>
    have hnil := matchingRows_nil_of_unique hu hM
    set row : CheckIn :=
      { event_id := e, delegate_id := d.delegate_id, session_id := safeSessionId sc,
        checked_in_at := t, checked_in_by := reg.id } with hrowdef
    have hnomem : ∀ c ∈ db.checkins, sameTuple c row = false := by
      intro c hc
      by_contra hcontra
      have htrue : sameTuple c row = true := by
        cases h : sameTuple c row
        · exact absurd h hcontra
        · rfl
      have hcmem : c ∈ matchingRows db e d.delegate_id (safeSessionId sc) := by
        rw [mem_matchingRows]
        have hst := sameTuple_iff.mp htrue
        exact ⟨hc, hst.1, hst.2.1, hst.2.2⟩
      rw [hnil] at hcmem
      exact absurd hcmem (List.not_mem_nil c)
    have hins := insertCheckIn_ok hnomem
    have hc1 : checkInDelegate db e d.delegate_id reg sc t
        = (Except.ok { success := true, message := "Verification Confirmed",
                       code := some (generateCode d.delegate_id e) },
           { db with checkins := db.checkins ++ [row] }) := by
      unfold checkInDelegate checkInDelegateRace
      rw [if_neg hguard]
      dsimp only
      rw [hM, hins]
    refine ⟨_, _, hc1, rfl, ?_⟩
    apply searchDelegates_reports_checkedIn _ e d sq he
    · exact hmem
    · exact hsafeq
    · exact ⟨row, by simp, rfl, rfl, by rw [hrowdef]; exact hsafec⟩

/-- Witness for C6: a whitespace-only check-in session followed by an
absent query session on a one-delegate store. -/
theorem nullSession_scope_equivalence_witness :
    ("E1" : String) ≠ "" ∧ delegateJane1.delegate_id ≠ "" ∧
    uniqueCheckins dbOneDelegate ∧
    delegateJane1 ∈ dbOneDelegate.delegates.take 100 ∧
    nullLikeSession (some " ") = true ∧ nullLikeSession none = true ∧
    (∃ r db1,
      checkInDelegate dbOneDelegate "E1" delegateJane1.delegate_id regAdmin
          (some " ") 0 = (Except.ok r, db1) ∧
      r.success = true ∧
      ∃ res ∈ searchDelegates db1 "" "E1" none none,
        res.delegate = delegateJane1 ∧ res.checkedIn = true) :=
  ⟨by decide, by decide, List.Pairwise.nil, by decide, by decide, by decide,
   nullSession_scope_equivalence dbOneDelegate "E1" delegateJane1 regAdmin
     (some " ") none 0 (by decide) (by decide) List.Pairwise.nil (by decide)
     (by decide) (by decide)⟩

theorem mem_insertByTimeDesc {c x : CheckIn} {l : List CheckIn} :
    x ∈ insertByTimeDesc c l ↔ x = c ∨ x ∈ l := by
  induction l with
  | nil => simp [insertByTimeDesc]
  | cons y ys ih =>
    unfold insertByTimeDesc
    split_ifs with h
    · simp only [List.mem_cons, ih]
      tauto
    · simp only [List.mem_cons]

theorem mem_sortByTimeDesc {x : CheckIn} {l : List CheckIn} :
    x ∈ sortByTimeDesc l ↔ x ∈ l := by
  unfold sortByTimeDesc
  induction l with
  | nil => simp
  | cons y ys ih =>
    simp only [List.foldr_cons, mem_insertByTimeDesc, ih, List.mem_cons]

/-- C2 counterexample: two delegate rows with identical normalized,
uppercased (first name, last name, district, rank) identity but different
ids, each with one check-in row under event "E1"; `getStats` reports a
headcount (and rank/district chart) increment of 2 for the identity, not
the claimed 1. -/
theorem getStats_identity_dedup_counterexample :
    identityKey delegateJane1 = identityKey delegateJane2 ∧
    delegateJane1.delegate_id ≠ delegateJane2.delegate_id ∧
    (∃ c ∈ dbDupIdentity.checkins,
      c.event_id = "E1" ∧ c.delegate_id = delegateJane1.delegate_id) ∧
    (∃ c ∈ dbDupIdentity.checkins,
      c.event_id = "E1" ∧ c.delegate_id = delegateJane2.delegate_id) ∧
    (getStats dbDupIdentity "E1" none).totalCheckIns = 2 ∧
    (getStats dbDupIdentity "E1" none).checkInsByRank "CP" = 2 ∧
    (getStats dbDupIdentity "E1" none).checkInsByDistrict "Lagos" = 2 := by decide

/-- C2 as amended: `getStats` deduplicates headcounts by delegate id, not
by physical identity.  Repeated check-in rows of one delegate id count
once, but two delegate rows with identical normalized identity and
different ids, each with at least one check-in row under the event,
contribute a headcount of 2 (one per delegate row). -/
theorem getStats_counts_per_delegate_id (dA dB : Delegate) (cs : List CheckIn)
    (fin : List FinancialEntry) (e : String)
    (hid : dA.delegate_id ≠ dB.delegate_id)
    (hkey : identityKey dA = identityKey dB)
    (hA : ∃ c ∈ cs, c.event_id = e ∧ c.delegate_id = dA.delegate_id)
    (hB : ∃ c ∈ cs, c.event_id = e ∧ c.delegate_id = dB.delegate_id) :
    (getStats { delegates := [dA, dB], checkins := cs, financials := fin }
        e none).totalCheckIns = 2 := by
  obtain ⟨cA, hcAmem, hcAe, hcAd⟩ := hA
  obtain ⟨cB, hcBmem, hcBe, hcBd⟩ := hB
  have hidmem : ∀ dd : Delegate, (∃ c ∈ cs, c.event_id = e ∧ c.delegate_id = dd.delegate_id) →
      ((sortByTimeDesc (eventCheckins
          { delegates := [dA, dB], checkins := cs, financials := fin } e)).map
        CheckIn.delegate_id).contains dd.delegate_id = true := by
    intro dd ⟨c, hcmem, hce, hcd⟩
    apply List.elem_iff.mpr
    rw [← hcd]
    apply List.mem_map_of_mem
    rw [mem_sortByTimeDesc]
    unfold eventCheckins
    rw [List.mem_filter]
    exact ⟨hcmem, by simp [hce]⟩
  have hA2 := hidmem dA ⟨cA, hcAmem, hcAe, hcAd⟩
  have hB2 := hidmem dB ⟨cB, hcBmem, hcBe, hcBd⟩
  show (attendedOf (sortByTimeDesc (eventCheckins _ e)) [dA, dB] none).length = 2
  unfold attendedOf filteredOf normalizedFilter
  dsimp only
  simp at hA2 hB2
  simp [List.filter_cons, hA2, hB2]

/-- Witness for the amended C2: the duplicated-identity store of the
counterexample. -/
theorem getStats_counts_per_delegate_id_witness :
    delegateJane1.delegate_id ≠ delegateJane2.delegate_id ∧
    identityKey delegateJane1 = identityKey delegateJane2 ∧
    (∃ c ∈ dbDupIdentity.checkins,
      c.event_id = "E1" ∧ c.delegate_id = delegateJane1.delegate_id) ∧
    (∃ c ∈ dbDupIdentity.checkins,
      c.event_id = "E1" ∧ c.delegate_id = delegateJane2.delegate_id) ∧
    (getStats { delegates := [delegateJane1, delegateJane2],
                checkins := dbDupIdentity.checkins, financials := [] }
        "E1" none).totalCheckIns = 2 :=
  ⟨by decide, by decide, by decide, by decide,
   getStats_counts_per_delegate_id delegateJane1 delegateJane2
     dbDupIdentity.checkins [] "E1" (by decide) (by decide) (by decide) (by decide)⟩

/-- C7 counterexample: with the whitespace-only district filter " " the
source computes the normalized filter "" which is falsy, so `getStats`
performs no filtering at all: both Lagos delegates (normalized uppercased
district "LAGOS", which does not equal the normalized filter "") are
counted, so check-ins of delegates outside the filter leak into
`totalCheckIns`, refuting the claim at this input. -/
theorem getStats_falsy_filter_counterexample :
    normalizedFilter (some " ") = some "" ∧
    (getStats dbTwoAttended "E1" (some " ")).totalCheckIns = 2 ∧
    (getStats dbTwoAttended "E1" (some " ")).totalDelegates = 2 ∧
    (∃ d ∈ attendedOf (sortByTimeDesc (eventCheckins dbTwoAttended "E1"))
        dbTwoAttended.delegates (some " "),
      jsToUpper (normalize (some d.district)) ≠ "") := by decide

/-- C7 as amended: `getStats` applies the district filter consistently to
numerator and denominator whenever the filter's normalized, uppercased
form is non-empty: then `totalCheckIns` counts only delegates whose
normalized, uppercased district equals it.  An absent, empty or
whitespace-only filter is falsy and disables district filtering entirely
(both counts are computed over the unfiltered pool).  In every case
`totalCheckIns` is the size of the attended set drawn from the filtered
pool and never exceeds `totalDelegates` computed under the same
filter. -/
theorem getStats_district_filter_consistent (db : DB) (e : String)
    (district : Option String) :
    (getStats db e district).totalCheckIns ≤ (getStats db e district).totalDelegates ∧
    (getStats db e district).totalCheckIns
      = (attendedOf (sortByTimeDesc (eventCheckins db e)) db.delegates district).length ∧
    (∀ f, normalizedFilter district = some f → f ≠ "" →
      ((attendedOf (sortByTimeDesc (eventCheckins db e)) db.delegates district).all
        (fun d => jsToUpper (normalize (some d.district)) == f)) = true) ∧
    (∀ f, normalizedFilter district = some f → f = "" →
      filteredOf db.delegates district = db.delegates) ∧
    (normalizedFilter district = none → filteredOf db.delegates district = db.delegates) := by
  refine ⟨?_, rfl, ?_, ?_, ?_⟩
  · show (attendedOf (sortByTimeDesc (eventCheckins db e)) db.delegates district).length
      ≤ (filteredOf db.delegates district).length
    exact List.length_filter_le _ _
  · intro f hf hfne
    rw [List.all_eq_true]
    intro d hd
    have hdf : d ∈ filteredOf db.delegates district := (List.mem_filter.mp hd).1
    unfold filteredOf at hdf
    rw [hf] at hdf
    dsimp only at hdf
    rw [if_pos hfne] at hdf
    exact (List.mem_filter.mp hdf).2
  · intro f hf hfe
    unfold filteredOf
    rw [hf]
    dsimp only
    rw [if_neg (by simp [hfe])]
  · intro hf
    unfold filteredOf
    rw [hf]

/-- Witness for the amended C7: the effective filter "Lagos" on the
two-delegate store keeps only matching districts in the counted set. -/
theorem getStats_district_filter_consistent_witness :
    normalizedFilter (some "Lagos") = some "LAGOS" ∧ ("LAGOS" : String) ≠ "" ∧
    ((attendedOf (sortByTimeDesc (eventCheckins dbTwoAttended "E1"))
        dbTwoAttended.delegates (some "Lagos")).all
      (fun d => jsToUpper (normalize (some d.district)) == "LAGOS")) = true :=
  ⟨by decide, by decide,
   (getStats_district_filter_consistent dbTwoAttended "E1" (some "Lagos")).2.2.1 "LAGOS"
     (by decide) (by decide)⟩

theorem filteredOf_length_le (l : List Delegate) (district : Option String) :
    (filteredOf l district).length ≤ l.length := by
  unfold filteredOf
  cases normalizedFilter district with
  | none => exact le_refl _
  | some f =>
    dsimp only
    split_ifs
    · exact List.length_filter_le _ _
    · exact le_refl _

theorem filteredOf_sublist (l : List Delegate) (n : Nat) (district : Option String) :
    List.Sublist (filteredOf (l.take n) district) (filteredOf l district) := by
  unfold filteredOf
  cases normalizedFilter district with
  | none => exact List.take_sublist n l
  | some f =>
    dsimp only
    split_ifs
    · exact List.Sublist.filter _ (List.take_sublist n l)
    · exact List.take_sublist n l

/-- C9 counterexample: against a store that truncates each response to a
one-row page, `getStats` (which issues a single query per table, with no
continuation) reports 1 delegate and 1 check-in, while the full table
holds 2 of each — the paged counts do not equal the full-table counts. -/
theorem getStats_pagination_counterexample :
    (getStatsPaged dbTwoAttended 1 "E1" none).totalCheckIns = 1 ∧
    (getStats dbTwoAttended "E1" none).totalCheckIns = 2 ∧
    (getStatsPaged dbTwoAttended 1 "E1" none).totalDelegates = 1 ∧
    (getStats dbTwoAttended "E1" none).totalDelegates = 2 := by decide

/-- C9 as amended: `getStats` issues exactly one query per table and
aggregates over only the first page the store returns — there is no
continuation until an empty page or a safety cap.  Under a store that
truncates to pages of `pageSize` rows, every reported count is therefore
bounded by the page size and by the corresponding full-table count
(an undercount on any table longer than one page). -/
theorem getStatsPaged_first_page_only (db : DB) (pageSize : Nat) (e : String)
    (district : Option String) :
    (getStatsPaged db pageSize e district).totalDelegates ≤ pageSize ∧
    (getStatsPaged db pageSize e district).totalCheckIns ≤ pageSize ∧
    (getStatsPaged db pageSize e district).totalDelegates
      ≤ (getStats db e district).totalDelegates ∧
    (getStatsPaged db pageSize e district).totalCheckIns
      ≤ (getStats db e district).totalCheckIns := by
  have htake : (db.delegates.take pageSize).length ≤ pageSize := by
    rw [List.length_take]
    omega
  refine ⟨?_, ?_, ?_, ?_⟩
  · show (filteredOf (db.delegates.take pageSize) district).length ≤ pageSize
    exact le_trans (filteredOf_length_le _ _) htake
  · show (attendedOf ((sortByTimeDesc (eventCheckins db e)).take pageSize)
        (db.delegates.take pageSize) district).length ≤ pageSize
    exact le_trans (le_trans (List.length_filter_le _ _) (filteredOf_length_le _ _)) htake
  · show (filteredOf (db.delegates.take pageSize) district).length
      ≤ (filteredOf db.delegates district).length
    exact (filteredOf_sublist _ _ _).length_le
  · show (attendedOf ((sortByTimeDesc (eventCheckins db e)).take pageSize)
        (db.delegates.take pageSize) district).length
      ≤ (attendedOf (sortByTimeDesc (eventCheckins db e)) db.delegates district).length
    unfold attendedOf
    apply List.Sublist.length_le
    have hmono : List.Sublist
        ((filteredOf (db.delegates.take pageSize) district).filter
          (fun d => (((sortByTimeDesc (eventCheckins db e)).take pageSize).map
            CheckIn.delegate_id).contains d.delegate_id))
        ((filteredOf (db.delegates.take pageSize) district).filter
          (fun d => ((sortByTimeDesc (eventCheckins db e)).map
            CheckIn.delegate_id).contains d.delegate_id)) := by
      apply List.monotone_filter_right
      intro a ha
      have hmem := List.elem_iff.mp ha
      apply List.elem_iff.mpr
      obtain ⟨c, hc, hceq⟩ := List.mem_map.mp hmem
      exact List.mem_map.mpr ⟨c, List.mem_of_mem_take hc, hceq⟩
    exact hmono.trans (List.Sublist.filter _ (filteredOf_sublist _ _ _))

/-- C8 counterexample: on "a  b" (two interior spaces) the source
`normalize` keeps the interior run while the claimed collapse-and-trim
normalization would produce "a b". -/
theorem normalize_collapse_counterexample :
    normalize (some "a  b") = "a  b" ∧
    specNormalize "a  b" = "a b" ∧
    normalize (some "a  b") ≠ specNormalize "a  b" := by decide

theorem head?_dropWhile_not (p : α → Bool) (l : List α) :
    ((l.dropWhile p).head?.all (fun c => !p c)) = true := by
  induction l with
  | nil => rfl
  | cons a xs ih =>
    rw [List.dropWhile_cons]
    split_ifs with h
    · exact ih
    · simp only [List.head?_cons, Option.all_some]
      simp only [Bool.not_eq_true] at h
      simp [h]

theorem getLast?_dropWhile (p : α → Bool) (l : List α)
    (h : l.dropWhile p ≠ []) : (l.dropWhile p).getLast? = l.getLast? := by
  induction l with
  | nil => simp at h
  | cons a xs ih =>
    rw [List.dropWhile_cons] at h ⊢
    split_ifs at h ⊢ with hp
    · cases xs with
      | nil =>
        rw [List.dropWhile_nil] at h
        exact absurd rfl h
      | cons b bs =>
        rw [List.getLast?_cons_cons]
        exact ih h
    · rfl

theorem all_takeWhile (p : α → Bool) (l : List α) : (l.takeWhile p).all p = true := by
  induction l with
  | nil => rfl
  | cons a xs ih =>
    rw [List.takeWhile_cons]
    split_ifs with h
    · simp [h, ih]
    · rfl

/-- C8 as amended: `normalize(s)` equals `s` with leading and trailing
whitespace removed and interior whitespace preserved: the result is a
contiguous piece of `s` (what was cut on either side is all whitespace)
and neither starts nor ends with whitespace. -/
theorem normalize_trims_only (s : String) :
    (∃ pre post, s.data = pre ++ (normalize (some s)).data ++ post ∧
        pre.all isJsSpace = true ∧ post.all isJsSpace = true) ∧
    ((normalize (some s)).data.head?.all (fun c => !isJsSpace c)) = true ∧
    ((normalize (some s)).data.getLast?.all (fun c => !isJsSpace c)) = true := by
  have hdata : (normalize (some s)).data
      = ((s.data.dropWhile isJsSpace).reverse.dropWhile isJsSpace).reverse := rfl
  refine ⟨⟨s.data.takeWhile isJsSpace,
          ((s.data.dropWhile isJsSpace).reverse.takeWhile isJsSpace).reverse,
          ?_, ?_, ?_⟩, ?_, ?_⟩
  · rw [hdata]
    conv_lhs => rw [← List.takeWhile_append_dropWhile (p := isJsSpace) (l := s.data)]
    rw [List.append_assoc]
    congr 1
    rw [← List.reverse_append, List.takeWhile_append_dropWhile, List.reverse_reverse]
  · exact all_takeWhile _ _
  · rw [List.all_reverse]
    exact all_takeWhile _ _
  · rw [hdata, List.head?_reverse]
    by_cases hr : (s.data.dropWhile isJsSpace).reverse.dropWhile isJsSpace = []
    · rw [hr]
      rfl
    · rw [getLast?_dropWhile _ _ hr, List.getLast?_reverse]
      exact head?_dropWhile_not _ _
  · rw [hdata, List.getLast?_reverse]
    exact head?_dropWhile_not _ _

/-- Witness for C10: a whitespace-only session id on a valid context is
refused with the session-restriction message and no state change. -/
theorem checkInByCode_requires_session_witness :
    nullLikeSession (some " ") = true ∧ ("E1" : String) ≠ "" ∧ ("5431" : String) ≠ "" ∧
    checkInByCode dbAbujaOnly "E1" "5431" regLagos (some " ") 0
      = (Except.error "Fast Check-in restricted to sessions.", dbAbujaOnly) :=
  ⟨by decide, by decide, by decide,
   (checkInByCode_requires_session dbAbujaOnly "E1" "5431" regLagos (some " ") 0).1
     (by decide) (by decide) (by decide)⟩

end FGB
